import Mathlib

/-!
Verification of the Morpheus guard-composition and audit-reconciliation core.

The embedding follows the Rust sources in `src/crates/morpheus-client`
(`core/reconciliation.rs`, `nanoswarm/microspace_guard.rs`,
`types/policy.rs`, `types/evidence.rs`) and
`src/crates/governance-healthcare/src/lib.rs`.

`f64` values are modelled as exact rationals (`ℚ`); `u32`/`u64`/`u8`
counters as `ℕ`.  Rust `HashMap`s frozen at construction are modelled as
lookup functions returning `Option`.  The modules `types/guards.rs`,
`types/audit.rs` and `types/corridor.rs` are referenced by
`reconciliation.rs` but are not present in the source tree; their
definitions are modelled from the specification and marked as such.
-/

namespace Morpheus

/-- Modelled from the spec: the `GuardDecision` enum of the missing
`types/guards.rs` — `AllowFull`, `DegradePrecision(reason)`,
`PauseAndRest(reason)`, `Forbid(reason)` (spec §3, and the constructors
used by `microspace_guard.rs` and `reconciliation.rs`). -/
inductive GuardDecision where
  | AllowFull : GuardDecision
  | DegradePrecision : String → GuardDecision
  | PauseAndRest : String → GuardDecision
  | Forbid : String → GuardDecision
deriving DecidableEq, Repr

namespace GuardDecision

/-- `matches!(d, GuardDecision::Forbid(_))`. -/
def isForbid : GuardDecision → Bool
  | Forbid _ => true
  | _ => false

/-- A soft (non-Forbid, non-Allow) decision: `DegradePrecision` or
`PauseAndRest`. -/
def isSoft : GuardDecision → Bool
  | DegradePrecision _ => true
  | PauseAndRest _ => true
  | _ => false

end GuardDecision

/-- Modelled from the spec: the Rust `derive(Debug)` rendering of a
`GuardDecision`, used by `reconciliation.rs` through `format!("{:?}", _)`
(string escaping inside the reason is not reproduced). -/
def guardDecisionRepr : GuardDecision → String
  | .AllowFull => "AllowFull"
  | .DegradePrecision r => "DegradePrecision(\"" ++ r ++ "\")"
  | .PauseAndRest r => "PauseAndRest(\"" ++ r ++ "\")"
  | .Forbid r => "Forbid(\"" ++ r ++ "\")"

/-! ## Microspace integrity guard (`nanoswarm/microspace_guard.rs`) -/

/-- `MicrospaceState` from `microspace_guard.rs`. -/
structure MicrospaceState where
  microspace_id : String
  occupant_organism : String
  volume_mm3 : ℚ
  current_swarm_volume_mm3 : ℚ
  ecosystem_role : String

/-- `SwarmActivityProposal` from `microspace_guard.rs`. -/
structure SwarmActivityProposal where
  target_microspace_id : String
  proposed_energy_draw_mw : ℚ
  proposed_duration_secs : ℕ
  activity_type : String

/-- `MicrospaceIntegrityGuard`: the three ceiling tables, modelled as
lookup functions (the Rust `HashMap`s are never mutated after `new`). -/
structure MicrospaceIntegrityGuard where
  density_ceilings : String → Option ℚ
  activity_power_limits : String → Option ℚ
  occupancy_limits : String → Option ℕ

namespace MicrospaceIntegrityGuard

/-- `MicrospaceIntegrityGuard::new()`: the default ceiling tables. -/
def new : MicrospaceIntegrityGuard where
  density_ceilings := fun k =>
    if k = "soil_rhizosphere" then some 0.5
    else if k = "insect_thorax" then some 0.1
    else if k = "coral_zooxanthella" then some 0.05
    else if k = "neural_tissue" then some 0.01
    else none
  activity_power_limits := fun k =>
    if k = "nutrient_cycling" then some 10.0
    else if k = "flight_metabolic" then some 1.0
    else if k = "photosynthesis" then some 0.5
    else none
  occupancy_limits := fun k =>
    if k = "soil_rhizosphere" then some 3600
    else if k = "insect_thorax" then some 1800
    else if k = "coral_zooxanthella" then some 14400
    else if k = "neural_tissue" then some 7200
    else none

/-- `evaluate_density`: percent density against the organism's ceiling
(fallback 0.1), hard bound at the ceiling, soft bound at ceiling × 0.8. -/
def evaluate_density (g : MicrospaceIntegrityGuard) (state : MicrospaceState) :
    GuardDecision :=
  let ceiling := (g.density_ceilings state.occupant_organism).getD 0.1
  let current_density_pct :=
    state.current_swarm_volume_mm3 / state.volume_mm3 * 100
  if current_density_pct > ceiling then
    .Forbid ("Microspace " ++ state.microspace_id ++ " density " ++
      toString current_density_pct ++ "% exceeds ceiling " ++
      toString ceiling ++ "%")
  else if current_density_pct > ceiling * 0.8 then
    .DegradePrecision ("Microspace " ++ state.microspace_id ++
      " density approaching ceiling " ++ toString current_density_pct ++
      "%/" ++ toString ceiling ++ "%")
  else
    .AllowFull

/-- `evaluate_activity`: proposed energy draw against the ecosystem
role's power limit (fallback 1.0 mW), hard bound at the limit, soft
bound at limit × 0.7. -/
def evaluate_activity (g : MicrospaceIntegrityGuard)
    (state : MicrospaceState) (proposal : SwarmActivityProposal) :
    GuardDecision :=
  let limit := (g.activity_power_limits state.ecosystem_role).getD 1.0
  if proposal.proposed_energy_draw_mw > limit then
    .Forbid ("Activity " ++ proposal.activity_type ++ " draws " ++
      toString proposal.proposed_energy_draw_mw ++ " mW exceeds limit " ++
      toString limit ++ " mW for " ++ state.ecosystem_role)
  else if proposal.proposed_energy_draw_mw > limit * 0.7 then
    .PauseAndRest "Activity power approaching limit; consider reducing duty cycle"
  else
    .AllowFull

/-- `evaluate_duration`: proposed occupancy against the organism's
limit in seconds (fallback 3600), hard bound at the limit, soft bound at
`(limit as f64 * 0.8) as u64` (exact for every limit in the table, all
multiples of 5, so modelled as `limit * 4 / 5` in `ℕ`). -/
def evaluate_duration (g : MicrospaceIntegrityGuard)
    (state : MicrospaceState) (proposal : SwarmActivityProposal) :
    GuardDecision :=
  let limit := (g.occupancy_limits state.occupant_organism).getD 3600
  if proposal.proposed_duration_secs > limit then
    .Forbid ("Proposed occupancy " ++ toString proposal.proposed_duration_secs ++
      " secs exceeds limit " ++ toString limit ++ " secs for " ++
      state.occupant_organism)
  else if proposal.proposed_duration_secs > limit * 4 / 5 then
    .PauseAndRest "Occupancy near limit; consider retreat soon"
  else
    .AllowFull

/-- `evaluate_swarm_proposal`: the three gates in sequence; any `Forbid`
returns immediately; then the first soft decision in
density → activity → duration order; else `AllowFull`. -/
def evaluate_swarm_proposal (g : MicrospaceIntegrityGuard)
    (state : MicrospaceState) (proposal : SwarmActivityProposal) :
    GuardDecision :=
  let density_check := g.evaluate_density state
  if density_check.isForbid then density_check
  else
    let activity_check := g.evaluate_activity state proposal
    if activity_check.isForbid then activity_check
    else
      let duration_check := g.evaluate_duration state proposal
      if duration_check.isForbid then duration_check
      else if (match density_check with
               | .DegradePrecision _ => true
               | _ => false) then density_check
      else if (match activity_check with
               | .PauseAndRest _ => true
               | _ => false) then activity_check
      else if (match duration_check with
               | .PauseAndRest _ => true
               | _ => false) then duration_check
      else .AllowFull

end MicrospaceIntegrityGuard

/-! ## Policy profiles (`types/policy.rs`) -/

/-- `NeurorightsConstraint` from `types/policy.rs`. -/
structure NeurorightsConstraint where
  name : String
  description : String
  enforced : Bool
deriving DecidableEq

/-- `BiomechPolicy` from `types/policy.rs`. -/
structure BiomechPolicy where
  module_scope : String
  risk_class : String
  max_effect_size : ℚ
  max_duty_cycle : ℚ
  max_session_minutes : ℕ
  bci_ceiling : ℚ
deriving DecidableEq

/-- `PolicyProfile` from `types/policy.rs` (the `HashMap` of corridor
polytopes is modelled as an association list; `effective_date` is kept
as an opaque string). -/
structure PolicyProfile where
  name : String
  version : String
  neurorights_constraints : List NeurorightsConstraint
  biomech_policy : BiomechPolicy
  corridor_polytopes : List (String × List ℚ)
  minimum_rights : List String
  authority : String
  effective_date : String
  notes : Option String
deriving DecidableEq

namespace PolicyProfile

/-- `PolicyProfile::validate` from `types/policy.rs`: rejects an empty
name, an empty authority, a BCI ceiling outside [0.0, 1.0], and an
empty minimum-rights list, in that order. -/
def validate (p : PolicyProfile) : Except String Unit :=
  if p.name = "" then
    .error "Policy profile name cannot be empty"
  else if p.authority = "" then
    .error "Authority must be specified"
  else if p.biomech_policy.bci_ceiling < 0 ∨ p.biomech_policy.bci_ceiling > 1 then
    .error "BCI ceiling must be in [0.0, 1.0]"
  else if p.minimum_rights = [] then
    .error "Minimum rights cannot be empty"
  else
    .ok ()

end PolicyProfile

/-! ## Evidence bundles (`types/evidence.rs`) -/

/-- `EvidenceTag` from `types/evidence.rs`. -/
structure EvidenceTag where
  hex_id : String
  domain : String
  description : String
  citation : String
  version : String
deriving DecidableEq

/-- `EvidenceBundle` from `types/evidence.rs` (`created_at` kept as an
opaque string; optional provenance map as an association list). -/
structure EvidenceBundle where
  id : String
  tags : List EvidenceTag
  knowledge_factor : ℚ
  uncertainty : ℚ
  created_at : String
  provenance : Option (List (String × String))
deriving DecidableEq

namespace EvidenceBundle

/-- `EvidenceBundle::validate` from `types/evidence.rs`. -/
def validate (b : EvidenceBundle) : Except String Unit :=
  if b.id = "" then
    .error "Bundle ID cannot be empty"
  else if b.tags = [] then
    .error "Evidence bundle must contain at least one tag"
  else if b.tags.length > 20 then
    .error "Evidence bundle cannot exceed 20 tags"
  else if b.knowledge_factor < 0 ∨ b.knowledge_factor > 1 then
    .error "Knowledge factor must be in [0.0, 1.0]"
  else if b.uncertainty < 0 ∨ b.uncertainty > 1 then
    .error "Uncertainty must be in [0.0, 1.0]"
  else
    .ok ()

/-- `EvidenceBundle::effective_margin` from `types/evidence.rs`:
`knowledge_factor * (1.0 - uncertainty)`. -/
def effective_margin (b : EvidenceBundle) : ℚ :=
  b.knowledge_factor * (1 - b.uncertainty)

end EvidenceBundle

/-! ## Corridor context, guards and audit records

`types/corridor.rs`, `types/guards.rs` and `types/audit.rs` are not in
the source tree; the definitions below are modelled from the spec. -/

/-- Modelled from the spec: `EcoCorridorContext` of the missing
`types/corridor.rs` — a jurisdiction/corridor context reference whose
`validate()` reports violation reasons (spec §3, §6); the only
structural requirement visible from callers is a non-empty jurisdiction
list (`main.rs` and the reconciliation test both push a jurisdiction
before evaluating). -/
structure EcoCorridorContext where
  corridor_id : String
  name : String
  jurisdictions : List String
deriving DecidableEq

/-- Modelled from the spec: corridor-context validation (empty violation
list ⇔ valid, spec §6). -/
def EcoCorridorContext.validate (c : EcoCorridorContext) : Except String Unit :=
  if c.jurisdictions = [] then
    .error "Corridor context must reference at least one jurisdiction"
  else
    .ok ()

/-- Modelled from the spec: `BciCeilingGuard` of the missing
`types/guards.rs` — a `CeilingGuard(ceiling, soft)` (spec §4.2):
hard threshold at the ceiling, soft threshold at the warn level. -/
structure BciCeilingGuard where
  ceiling : ℚ
  warn_threshold : ℚ
deriving DecidableEq

/-- Modelled from the spec: `CeilingGuard.evaluate(proposed)` — `Forbid`
if proposed > ceiling, `DegradePrecision` if proposed > warn threshold,
else `AllowFull` (spec §4.2). -/
def BciCeilingGuard.evaluate (g : BciCeilingGuard) (proposed : ℚ) :
    GuardDecision :=
  if proposed > g.ceiling then
    .Forbid "proposed BCI* exceeds ceiling"
  else if proposed > g.warn_threshold then
    .DegradePrecision "proposed BCI* approaching ceiling"
  else
    .AllowFull

/-- Modelled from the spec: `RoHGuard` of the missing `types/guards.rs`
— a `MonotonicityGuard(ceiling, current)` (spec §4.2). -/
structure RoHGuard where
  ceiling : ℚ
  current : ℚ
deriving DecidableEq

/-- Modelled from the spec: `MonotonicityGuard.evaluate(proposed)` —
`Forbid` if proposed > ceiling, else `AllowFull` (ceiling-only
semantics, spec §4.2 and the §9 design note). -/
def RoHGuard.evaluate (g : RoHGuard) (proposed : ℚ) : GuardDecision :=
  if proposed > g.ceiling then
    .Forbid "proposed RoH exceeds ceiling"
  else
    .AllowFull

/-- Modelled from the spec: `EnvelopeGuard` of the missing
`types/guards.rs` — tightening-only constraint on the (duty cycle,
session length) pair (spec §4.2). -/
structure EnvelopeGuard where
  current_duty_cycle : ℚ
  current_session_length : ℕ
deriving DecidableEq

/-- Modelled from the spec: `EnvelopeGuard.evaluate(proposed_a,
proposed_b)` — `Forbid` if either proposed value exceeds its current
value (the envelope may only tighten), else `AllowFull` (spec §4.2,
§8.3). -/
def EnvelopeGuard.evaluate (g : EnvelopeGuard) (proposed_duty : ℚ)
    (proposed_session : ℕ) : GuardDecision :=
  if proposed_duty > g.current_duty_cycle ∨
      proposed_session > g.current_session_length then
    .Forbid "Envelope may only tighten: proposed exposure exceeds current"
  else
    .AllowFull

/-- Modelled from the spec: `EvolutionOutcome` of the missing
`types/audit.rs` — serialized as `"Allowed" | "Rejected"` (spec §6). -/
inductive EvolutionOutcome where
  | Allowed : EvolutionOutcome
  | Rejected : EvolutionOutcome
deriving DecidableEq, Repr

/-- Modelled from the spec: `EvolutionAuditRecord` of the missing
`types/audit.rs` — proposal identity, policy profile name, the
before/after BCI*/RoH snapshots written by `set_outcome`, and the
composed outcome (spec §3, fields as used by `reconciliation.rs`). -/
structure EvolutionAuditRecord where
  did : String
  corridor_context : EcoCorridorContext
  evidence_bundle : EvidenceBundle
  policy_profile : String
  neuromorphic_decision : String
  outcome : EvolutionOutcome
  bci_before : ℚ
  bci_after : Option ℚ
  roh_before : ℚ
  roh_after : Option ℚ
deriving DecidableEq

/-- Modelled from the spec: `respects_monotonicity` of the missing
`types/audit.rs` — the record's independent self-check that the
recorded RoH transition stays within the hard constitutional ceiling
0.3 (spec §4.4 with the ceiling-only semantics of the §9 design note;
§8.7 expects `monotonicity_ok = true` for RoH 0.10 → 0.14). -/
def EvolutionAuditRecord.respects_monotonicity
    (r : EvolutionAuditRecord) : Bool :=
  match r.roh_after with
  | some a => decide (a ≤ 0.3)
  | none => true

/-! ## Reconciliation engine (`core/reconciliation.rs`) -/

/-- Whether `pat` occurs at the start of `s` (on character lists). -/
def charListStartsWith : List Char → List Char → Bool
  | _, [] => true
  | [], _ :: _ => false
  | c :: cs, p :: ps => c == p && charListStartsWith cs ps

/-- Whether `pat` occurs anywhere inside `s` (on character lists). -/
def charListContainsSeq : List Char → List Char → Bool
  | [], pat => pat.isEmpty
  | c :: cs, pat => charListStartsWith (c :: cs) pat || charListContainsSeq cs pat

/-- Rust `str::contains(pat)`: substring containment. -/
def strContainsSub (s pat : String) : Bool :=
  charListContainsSeq s.data pat.data

/-- `MorpheusError`: the error variants used by `core/reconciliation.rs`
(matching the spec §7 taxonomy). -/
inductive MorpheusError where
  | PolicyError : String → MorpheusError
  | CorridorViolation : String → MorpheusError
  | EvidenceInvalid : String → MorpheusError
  | GuardRejection : String → MorpheusError
  | MonotonicityViolation : String → MorpheusError
deriving DecidableEq, Repr

/-- `EvolutionProposal` from `core/reconciliation.rs`. -/
structure EvolutionProposal where
  did : String
  corridor_context : EcoCorridorContext
  evidence_bundle : EvidenceBundle
  neuromorphic_decision : String
  current_bci : ℚ
  proposed_bci : ℚ
  current_roh : ℚ
  proposed_roh : ℚ
  current_duty_cycle : ℚ
  proposed_duty_cycle : ℚ
  current_session_length : ℕ
  proposed_session_length : ℕ
deriving DecidableEq

/-- `ReconciliationEngine` from `core/reconciliation.rs`. -/
structure ReconciliationEngine where
  policy_profile : PolicyProfile
  bci_guard : BciCeilingGuard
  roh_ceiling : ℚ
  envelope_guard_enabled : Bool
deriving DecidableEq

namespace ReconciliationEngine

/-- `ReconciliationEngine::new`: validates the profile, then derives the
BCI guard from its ceiling (warn threshold `(ceiling * 0.85).max(0.0)`),
fixes the RoH ceiling at the hard constitutional 0.3, and enables the
envelope guard. -/
def new (policy_profile : PolicyProfile) :
    Except MorpheusError ReconciliationEngine :=
  match policy_profile.validate with
  | .error e => .error (.PolicyError e)
  | .ok _ =>
    let bci_ceiling := policy_profile.biomech_policy.bci_ceiling
    let warn_threshold := max (bci_ceiling * 0.85) 0
    .ok { policy_profile := policy_profile
          bci_guard := ⟨bci_ceiling, warn_threshold⟩
          roh_ceiling := 0.3
          envelope_guard_enabled := true }

/-- Step 6 of `evaluate_evolution`: the first enforced neurorights
constraint whose name contains `"Forbidden"`, if any. -/
def violatedConstraint (cs : List NeurorightsConstraint) :
    Option NeurorightsConstraint :=
  cs.find? fun c => c.enforced && strContainsSub c.name "Forbidden"

/-- Step 7 of `evaluate_evolution`: `EvolutionAuditRecord::new` followed
by `set_outcome(Allowed, current_bci, Some proposed_bci, current_roh,
Some proposed_roh)`. -/
def buildAuditRecord (engine : ReconciliationEngine)
    (proposal : EvolutionProposal) : EvolutionAuditRecord where
  did := proposal.did
  corridor_context := proposal.corridor_context
  evidence_bundle := proposal.evidence_bundle
  policy_profile := engine.policy_profile.name
  neuromorphic_decision := proposal.neuromorphic_decision
  outcome := .Allowed
  bci_before := proposal.current_bci
  bci_after := some proposal.proposed_bci
  roh_before := proposal.current_roh
  roh_after := some proposal.proposed_roh

/-- The RoH guard decision computed in step 4 of `evaluate_evolution`:
`RoHGuard::new(self.roh_ceiling, proposal.current_roh)` evaluated at
`proposal.proposed_roh`. -/
def rohDecision (engine : ReconciliationEngine)
    (proposal : EvolutionProposal) : GuardDecision :=
  RoHGuard.evaluate ⟨engine.roh_ceiling, proposal.current_roh⟩
    proposal.proposed_roh

/-- The envelope guard decision computed in step 5 of
`evaluate_evolution`: `EnvelopeGuard::new(current_duty_cycle,
current_session_length)` evaluated at the proposed pair. -/
def envelopeDecision (proposal : EvolutionProposal) : GuardDecision :=
  EnvelopeGuard.evaluate
    ⟨proposal.current_duty_cycle, proposal.current_session_length⟩
    proposal.proposed_duty_cycle proposal.proposed_session_length

/-- Steps 6–7 of `evaluate_evolution`: the enforced-"Forbidden"
constraint scan, then audit-record construction and the monotonicity
self-check (the self-check function is a parameter, instantiated with
`EvolutionAuditRecord.respects_monotonicity` below). -/
def finishEvaluation (check : EvolutionAuditRecord → Bool)
    (engine : ReconciliationEngine) (proposal : EvolutionProposal) :
    Except MorpheusError (EvolutionOutcome × EvolutionAuditRecord) :=
  match violatedConstraint engine.policy_profile.neurorights_constraints with
  | some c => .error (.PolicyError ("Policy constraint violated: " ++ c.name))
  | none =>
    let audit_record := buildAuditRecord engine proposal
    if check audit_record then
      .ok (.Allowed, audit_record)
    else
      .error (.MonotonicityViolation
        "Audit record violates monotonicity constraint")

/-- `ReconciliationEngine::evaluate_evolution`, with the audit record's
monotonicity self-check as a parameter (that check lives in the missing
`types/audit.rs`): context validation, evidence validation, then the
BCI ceiling guard, the RoH guard and the envelope guard in order, each
short-circuiting on `Forbid`, then steps 6–7. -/
def evaluateEvolutionWith (check : EvolutionAuditRecord → Bool)
    (engine : ReconciliationEngine) (proposal : EvolutionProposal) :
    Except MorpheusError (EvolutionOutcome × EvolutionAuditRecord) :=
  match proposal.corridor_context.validate with
  | .error e => .error (.CorridorViolation e)
  | .ok _ =>
    match proposal.evidence_bundle.validate with
    | .error e => .error (.EvidenceInvalid e)
    | .ok _ =>
      let bci_decision := engine.bci_guard.evaluate proposal.proposed_bci
      if bci_decision.isForbid then
        .error (.GuardRejection
          ("BCI guard rejected: " ++ guardDecisionRepr bci_decision))
      else
        let roh_decision := rohDecision engine proposal
        if roh_decision.isForbid then
          .error (.MonotonicityViolation
            ("RoH guard rejected: " ++ guardDecisionRepr roh_decision))
        else if engine.envelope_guard_enabled &&
            (envelopeDecision proposal).isForbid then
          .error (.GuardRejection
            ("Envelope guard rejected: " ++
              guardDecisionRepr (envelopeDecision proposal)))
        else
          finishEvaluation check engine proposal

/-- `ReconciliationEngine::evaluate_evolution` with the concrete
self-check of the audit record. -/
def evaluate_evolution (engine : ReconciliationEngine)
    (proposal : EvolutionProposal) :
    Except MorpheusError (EvolutionOutcome × EvolutionAuditRecord) :=
  evaluateEvolutionWith EvolutionAuditRecord.respects_monotonicity
    engine proposal

/-- `ReconciliationEngine::set_policy_profile`: validates the new
profile, and only on success swaps it in and rebuilds the BCI guard
with the new ceiling and a warn threshold of ceiling × 0.85.  The
returned engine is the post-call state (`&mut self` in Rust): on a
validation error it is the unchanged input engine. -/
def set_policy_profile (engine : ReconciliationEngine)
    (profile : PolicyProfile) :
    ReconciliationEngine × Except MorpheusError Unit :=
  match profile.validate with
  | .error e => (engine, .error (.PolicyError e))
  | .ok _ =>
    ({ engine with
        policy_profile := profile
        bci_guard := ⟨profile.biomech_policy.bci_ceiling,
          profile.biomech_policy.bci_ceiling * 0.85⟩ },
      .ok ())

end ReconciliationEngine

/-- The engines reachable through the public lifecycle: created by
`ReconciliationEngine::new` and updated only by `set_policy_profile`. -/
inductive EngineReachable : ReconciliationEngine → Prop where
  | of_new (p : PolicyProfile) (e : ReconciliationEngine) :
      ReconciliationEngine.new p = .ok e → EngineReachable e
  | of_set (e : ReconciliationEngine) (p : PolicyProfile) :
      EngineReachable e → EngineReachable (e.set_policy_profile p).1

/-! ## Tiered healthcare governance validator
(`governance-healthcare/src/lib.rs`) -/

/-- `ClinicalRiskTier` from `governance-healthcare`. -/
inductive ClinicalRiskTier where
  | Low : ClinicalRiskTier
  | Medium : ClinicalRiskTier
  | High : ClinicalRiskTier
  | Critical : ClinicalRiskTier
deriving DecidableEq, Repr

/-- `ClinicalUseCase` from `governance-healthcare`. -/
inductive ClinicalUseCase where
  | Triage : ClinicalUseCase
  | DiagnosticSupport : ClinicalUseCase
  | TreatmentRecommendation : ClinicalUseCase
  | Monitoring : ClinicalUseCase
  | Administrative : ClinicalUseCase
  | ResearchOnly : ClinicalUseCase
deriving DecidableEq, Repr

/-- `HitlPattern` from `governance-healthcare`. -/
inductive HitlPattern where
  | HumanReviewRequired : HitlPattern
  | HumanOverrideCapable : HitlPattern
  | AutonomousWithinLimits : HitlPattern
deriving DecidableEq, Repr

/-- `ConsentProfile` from `governance-healthcare`. -/
structure ConsentProfile where
  requires_individual_consent : Bool
  involves_indigenous_or_community_data : Bool
  fpic_granted : Bool
deriving DecidableEq

/-- `LoggingProfile` from `governance-healthcare` (`u8` years as `ℕ`). -/
structure LoggingProfile where
  min_retention_years : ℕ
  tamper_evident_required : Bool
  full_decision_trace_required : Bool
deriving DecidableEq

/-- `DatasetProvenancePolicy` from `governance-healthcare`. -/
structure DatasetProvenancePolicy where
  require_source_and_license : Bool
  require_consent_and_jurisdiction_tags : Bool
  require_biosignal_labelling : Bool
deriving DecidableEq

/-- `HealthcareGovernancePolicy` from `governance-healthcare`
(`created_at : SystemTime` modelled as an opaque `ℕ` timestamp). -/
structure HealthcareGovernancePolicy where
  model_id : String
  owner : String
  clinical_use_case : ClinicalUseCase
  risk_tier : ClinicalRiskTier
  hitl_pattern : HitlPattern
  consent_profile : ConsentProfile
  logging : LoggingProfile
  dataset_provenance : DatasetProvenancePolicy
  uses_biosignals : Bool
  touches_indigenous_data : Bool
  created_at : ℕ
deriving DecidableEq

/-- Rust `str::trim`: strip leading and trailing whitespace (modelled
with the core whitespace predicate). -/
def strTrim (s : String) : String :=
  ⟨((s.data.dropWhile Char.isWhitespace).reverse.dropWhile
      Char.isWhitespace).reverse⟩

/-- `PolicyValidationResult` from `governance-healthcare`. -/
structure PolicyValidationResult where
  ok : Bool
  errors : List String
deriving DecidableEq

/-- `validate_healthcare_policy` from `governance-healthcare`: all seven
rule groups run unconditionally, each appending its violation messages
to the accumulated list in source order; `ok` is `errors.is_empty()`. -/
def validate_healthcare_policy (policy : HealthcareGovernancePolicy) :
    PolicyValidationResult :=
  let errors : List String :=
    (if strTrim policy.model_id = "" then
      ["model_id must not be empty"] else []) ++
    (if strTrim policy.owner = "" then
      ["owner must not be empty"] else []) ++
    (match policy.risk_tier with
     | .High | .Critical =>
       match policy.hitl_pattern with
       | .HumanReviewRequired | .HumanOverrideCapable => []
       | .AutonomousWithinLimits =>
         ["AutonomousWithinLimits is forbidden for High/Critical clinical risk"]
     | .Medium =>
       match policy.hitl_pattern with
       | .AutonomousWithinLimits =>
         ["AutonomousWithinLimits is not allowed for Medium clinical risk"]
       | _ => []
     | .Low => []) ++
    (if (policy.risk_tier = .Medium ∨ policy.risk_tier = .High ∨
          policy.risk_tier = .Critical) ∧
        policy.consent_profile.requires_individual_consent = false then
      ["Medium/High/Critical risk deployments must require individual consent/notice"]
     else []) ++
    (if (policy.touches_indigenous_data ||
          policy.consent_profile.involves_indigenous_or_community_data) &&
        !policy.consent_profile.fpic_granted then
      ["FPIC must be granted before deploying models that touch Indigenous/community data"]
     else []) ++
    (match policy.risk_tier with
     | .High | .Critical =>
       (if policy.logging.min_retention_years < 7 then
         ["High/Critical risk deployments must retain logs for at least 7 years"]
        else []) ++
       (if !policy.logging.tamper_evident_required then
         ["High/Critical risk deployments must use tamper‑evident log storage"]
        else []) ++
       (if !policy.logging.full_decision_trace_required then
         ["High/Critical risk deployments must store full decision traces"]
        else [])
     | .Medium =>
       if policy.logging.min_retention_years < 5 then
         ["Medium risk deployments should retain logs for at least 5 years"]
       else []
     | .Low => []) ++
    (if policy.uses_biosignals &&
        !policy.dataset_provenance.require_biosignal_labelling then
      ["uses_biosignals=true requires biosignal labelling in dataset provenance"]
     else []) ++
    (if !policy.dataset_provenance.require_source_and_license then
      ["Training datasets must declare source and license"] else []) ++
    (if !policy.dataset_provenance.require_consent_and_jurisdiction_tags then
      ["Training datasets must include consent and jurisdiction tags"] else [])
  { ok := errors.isEmpty, errors := errors }

/-! ## Concrete fixtures (mirroring the repository's own tests) -/

/-- The ATP evidence tag from `BiophysicalDomains::atp()`. -/
def sampleTag : EvidenceTag where
  hex_id := "0x_atp_"
  domain := "bio.atp.v1"
  description := "ATP consumption and mitochondrial coupling efficiency"
  citation := "doi:10.1038/nrn3711"
  version := "1.0"

/-- An evidence bundle like the reconciliation test's
(`EvidenceBundle::new("ev1", 0.9, 0.1)`), with one tag so that it
validates. -/
def sampleEvidence : EvidenceBundle where
  id := "ev1"
  tags := [sampleTag]
  knowledge_factor := 0.9
  uncertainty := 0.1
  created_at := "2026-01-01T00:00:00Z"
  provenance := none

/-- A corridor context with one jurisdiction, as in the reconciliation
test. -/
def sampleCorridor : EcoCorridorContext where
  corridor_id := "test"
  name := "Test"
  jurisdictions := ["US/Arizona"]

/-- The profile built by `PolicyProfile::new("test", "1.0", "test")`:
default biomech policy (BCI ceiling 0.25) and the four-right minimum
floor. -/
def sampleProfile : PolicyProfile where
  name := "test"
  version := "1.0"
  neurorights_constraints := []
  biomech_policy :=
    { module_scope := "observer"
      risk_class := "medium"
      max_effect_size := 0.5
      max_duty_cycle := 0.5
      max_session_minutes := 60
      bci_ceiling := 0.25 }
  corridor_polytopes := []
  minimum_rights :=
    ["right_to_consent", "right_to_abort", "right_to_identity",
     "right_to_privacy"]
  authority := "test"
  effective_date := "2026-01-01T00:00:00Z"
  notes := none

/-- The engine `ReconciliationEngine::new(sampleProfile)` produces:
BCI guard ⟨0.25, 0.25 × 0.85⟩, RoH ceiling 0.3, envelope guard on. -/
def sampleEngine : ReconciliationEngine where
  policy_profile := sampleProfile
  bci_guard := ⟨0.25, 0.2125⟩
  roh_ceiling := 0.3
  envelope_guard_enabled := true

/-- The passing proposal of the reconciliation test
(`test_evolution_proposal_evaluation`). -/
def sampleProposal : EvolutionProposal where
  did := "did:bostrom:test"
  corridor_context := sampleCorridor
  evidence_bundle := sampleEvidence
  neuromorphic_decision := "test"
  current_bci := 0.1
  proposed_bci := 0.15
  current_roh := 0.1
  proposed_roh := 0.12
  current_duty_cycle := 0.5
  proposed_duty_cycle := 0.4
  current_session_length := 60
  proposed_session_length := 45

/-- `sampleProposal` with a proposed BCI* of 0.5: above the 0.25
ceiling, so the BCI guard forbids. -/
def proposalBciForbid : EvolutionProposal :=
  { sampleProposal with proposed_bci := 0.5 }

/-- `sampleProposal` with a proposed BCI* of 0.22: between the warn
threshold 0.2125 and the ceiling 0.25, so the BCI guard returns the
soft decision `DegradePrecision`. -/
def proposalBciSoft : EvolutionProposal :=
  { sampleProposal with proposed_bci := 0.22 }

/-- The bee microspace state of `test_activity_power_limit`: ecosystem
role `flight_metabolic`, whose activity power limit is 1.0 mW. -/
def beeState : MicrospaceState where
  microspace_id := "bee_001"
  occupant_organism := "insect_thorax"
  volume_mm3 := 50
  current_swarm_volume_mm3 := 0.05
  ecosystem_role := "flight_metabolic"

/-- The 5.0 mW proposal of `test_activity_power_limit`. -/
def beeProposal5 : SwarmActivityProposal where
  target_microspace_id := "bee_001"
  proposed_energy_draw_mw := 5.0
  proposed_duration_secs := 600
  activity_type := "pollination_assist"

/-- The same proposal with a 0.8 mW draw. -/
def beeProposal08 : SwarmActivityProposal :=
  { beeProposal5 with proposed_energy_draw_mw := 0.8 }

/-- The same proposal with a 0.5 mW draw (below 1.0 × 0.7). -/
def beeProposal05 : SwarmActivityProposal :=
  { beeProposal5 with proposed_energy_draw_mw := 0.5 }

/-- A healthcare governance policy violating two independent rules:
an empty `model_id` (missing mandatory field) and
`AutonomousWithinLimits` at High clinical risk (forbidden-tier
setting); every other rule is satisfied. -/
def doublyBadPolicy : HealthcareGovernancePolicy where
  model_id := ""
  owner := "clinical-ai-team"
  clinical_use_case := .Triage
  risk_tier := .High
  hitl_pattern := .AutonomousWithinLimits
  consent_profile :=
    { requires_individual_consent := true
      involves_indigenous_or_community_data := false
      fpic_granted := false }
  logging :=
    { min_retention_years := 7
      tamper_evident_required := true
      full_decision_trace_required := true }
  dataset_provenance :=
    { require_source_and_license := true
      require_consent_and_jurisdiction_tags := true
      require_biosignal_labelling := true }
  uses_biosignals := false
  touches_indigenous_data := false
  created_at := 0

/-- A policy profile with an empty name, rejected by
`PolicyProfile::validate`. -/
def namelessProfile : PolicyProfile :=
  { sampleProfile with name := "" }

/-- A soil microspace at 0.1% density (ceiling 0.5%, soft threshold
0.4%): every sub-check of the swarm guard allows. -/
def soilState : MicrospaceState where
  microspace_id := "soil_001"
  occupant_organism := "soil_rhizosphere"
  volume_mm3 := 1000
  current_swarm_volume_mm3 := 1
  ecosystem_role := "nutrient_cycling"

/-- A modest activity proposal for `soilState`: 0.5 mW (limit 10 mW)
for 600 s (limit 3600 s). -/
def soilProposal : SwarmActivityProposal where
  target_microspace_id := "soil_001"
  proposed_energy_draw_mw := 0.5
  proposed_duration_secs := 600
  activity_type := "nutrient_survey"

/-! ## Claims -/

/-- Helper: the test profile passes `PolicyProfile::validate`. -/
theorem sampleProfile_validate_ok : sampleProfile.validate = .ok () := by
  unfold PolicyProfile.validate
  rw [if_neg (by decide), if_neg (by decide),
    if_neg (by norm_num [sampleProfile]), if_neg (by decide)]

/-- Helper: the test evidence bundle passes `EvidenceBundle::validate`. -/
theorem sampleEvidence_validate_ok : sampleEvidence.validate = .ok () := by
  unfold EvidenceBundle.validate
  rw [if_neg (by decide), if_neg (by decide), if_neg (by decide),
    if_neg (by norm_num [sampleEvidence]),
    if_neg (by norm_num [sampleEvidence])]

/-- C6: `PolicyProfile::validate` returns an error if the profile's
name is empty, its authority is empty, its BCI ceiling lies outside
[0.0, 1.0], or its minimum-rights list is empty, and returns `Ok` for
every profile satisfying all four conditions. -/
theorem policy_profile_validate_ok_iff (p : PolicyProfile) :
    p.validate = .ok () ↔
      (p.name ≠ "" ∧ p.authority ≠ "" ∧
        0 ≤ p.biomech_policy.bci_ceiling ∧
        p.biomech_policy.bci_ceiling ≤ 1 ∧
        p.minimum_rights ≠ []) := by
  unfold PolicyProfile.validate
  split_ifs with h1 h2 h3 h4 <;> simp_all [not_or, not_lt]
  intro ha hb
  rcases h3 with h | h
  · exact (not_lt.mpr ha h).elim
  · exact (not_lt.mpr hb h).elim

/-- C6 witness: the repository's own test profile satisfies all four
conditions and validates. -/
theorem policy_profile_validate_ok_iff_witness :
    sampleProfile.validate = .ok () :=
  (policy_profile_validate_ok_iff sampleProfile).mpr
    ⟨by decide, by decide, by norm_num [sampleProfile],
     by norm_num [sampleProfile], by decide⟩

/-- C9: `EvidenceBundle::validate` returns `Ok` exactly when the id is
non-empty, there is at least one and at most 20 tags, and both the
knowledge factor and the uncertainty lie in [0.0, 1.0]; and for every
bundle, `effective_margin = knowledge_factor * (1 - uncertainty)`. -/
theorem evidence_bundle_validate_and_margin (b : EvidenceBundle) :
    (b.validate = .ok () ↔
      (b.id ≠ "" ∧ b.tags ≠ [] ∧ b.tags.length ≤ 20 ∧
        0 ≤ b.knowledge_factor ∧ b.knowledge_factor ≤ 1 ∧
        0 ≤ b.uncertainty ∧ b.uncertainty ≤ 1)) ∧
    b.effective_margin = b.knowledge_factor * (1 - b.uncertainty) := by
  refine ⟨?_, rfl⟩
  unfold EvidenceBundle.validate
  split_ifs with h1 h2 h3 h4 h5 <;> simp_all [not_or, not_lt]
  · intro ha hb _
    rcases h4 with h | h
    · exact (not_lt.mpr ha h).elim
    · exact (not_lt.mpr hb h).elim
  · intro ha
    rcases h5 with h | h
    · exact (not_lt.mpr ha h).elim
    · exact h

/-- C9 witness: the one-tag bundle with knowledge factor 0.9 and
uncertainty 0.1 validates, and its effective margin is 0.81. -/
theorem evidence_bundle_validate_and_margin_witness :
    sampleEvidence.validate = .ok () ∧
    sampleEvidence.effective_margin = 0.81 :=
  ⟨((evidence_bundle_validate_and_margin sampleEvidence).1).mpr
      ⟨by decide, by decide, by decide, by norm_num [sampleEvidence],
       by norm_num [sampleEvidence], by norm_num [sampleEvidence],
       by norm_num [sampleEvidence]⟩,
   by rw [(evidence_bundle_validate_and_margin sampleEvidence).2]
      norm_num [sampleEvidence]⟩

/-- C7: `validate_healthcare_policy` collects every violated rule: its
result has `ok = true` exactly when the error list is empty, and a
policy violating both the High-risk HITL rule and the non-empty
`model_id` rule yields a list containing both messages. -/
theorem validate_healthcare_policy_collects_all :
    (∀ p : HealthcareGovernancePolicy,
      (validate_healthcare_policy p).ok = true ↔
        (validate_healthcare_policy p).errors = []) ∧
    ("AutonomousWithinLimits is forbidden for High/Critical clinical risk" ∈
        (validate_healthcare_policy doublyBadPolicy).errors ∧
      "model_id must not be empty" ∈
        (validate_healthcare_policy doublyBadPolicy).errors ∧
      (validate_healthcare_policy doublyBadPolicy).ok = false) := by
  constructor
  · intro p
    unfold validate_healthcare_policy
    exact List.isEmpty_iff
  · refine ⟨by decide, by decide, by decide⟩

/-- C7 witness: the two-violation policy instantiates the general
pass/fail contract. -/
theorem validate_healthcare_policy_collects_all_witness :
    (validate_healthcare_policy doublyBadPolicy).ok = true ↔
      (validate_healthcare_policy doublyBadPolicy).errors = [] :=
  validate_healthcare_policy_collects_all.1 doublyBadPolicy

/-- C8: `set_policy_profile` validates the new profile before any
mutation: on a validation error it returns that error and the engine
(profile and derived BCI guard included) is unchanged; on success it
swaps the profile and rebuilds the BCI guard with the new ceiling and a
warn threshold of ceiling × 0.85. -/
theorem set_policy_profile_spec (engine : ReconciliationEngine)
    (profile : PolicyProfile) :
    (∀ e, profile.validate = .error e →
      engine.set_policy_profile profile =
        (engine, .error (.PolicyError e))) ∧
    (profile.validate = .ok () →
      engine.set_policy_profile profile =
        ({ engine with
            policy_profile := profile
            bci_guard := ⟨profile.biomech_policy.bci_ceiling,
              profile.biomech_policy.bci_ceiling * 0.85⟩ },
          .ok ())) := by
  constructor
  · intro e he
    unfold ReconciliationEngine.set_policy_profile
    rw [he]
  · intro hok
    unfold ReconciliationEngine.set_policy_profile
    rw [hok]

/-- C8 witness: replacing with an empty-named profile fails and leaves
the engine unchanged; replacing with a valid profile installs it and
rebuilds the BCI guard. -/
theorem set_policy_profile_spec_witness :
    sampleEngine.set_policy_profile namelessProfile =
      (sampleEngine,
        .error (.PolicyError "Policy profile name cannot be empty")) ∧
    sampleEngine.set_policy_profile sampleProfile =
      ({ sampleEngine with
          policy_profile := sampleProfile
          bci_guard := ⟨0.25, 0.25 * 0.85⟩ },
        .ok ()) :=
  ⟨(set_policy_profile_spec sampleEngine namelessProfile).1 _ rfl,
   (set_policy_profile_spec sampleEngine sampleProfile).2
     sampleProfile_validate_ok⟩

/-- Helper: under the default tables, the activity-power limit for the
`flight_metabolic` role is 1.0 mW. -/
theorem flight_metabolic_limit :
    (MicrospaceIntegrityGuard.new.activity_power_limits
      "flight_metabolic").getD 1.0 = 1 := by
  have h : MicrospaceIntegrityGuard.new.activity_power_limits
      "flight_metabolic" = some 1.0 := rfl
  rw [h, Option.getD_some]
  norm_num

/-- C4 counterexample: for the `flight_metabolic` role (limit 1.0 mW) a
proposed draw of 0.8 mW yields `PauseAndRest`, not `AllowFull` as the
claim states — the soft threshold in `evaluate_activity` is
limit × 0.7, not limit × 0.8. -/
theorem evaluate_activity_08_counterexample :
    MicrospaceIntegrityGuard.new.activity_power_limits
        beeState.ecosystem_role = some 1.0 ∧
    MicrospaceIntegrityGuard.new.evaluate_activity beeState beeProposal08 =
      .PauseAndRest
        "Activity power approaching limit; consider reducing duty cycle" ∧
    MicrospaceIntegrityGuard.new.evaluate_activity beeState beeProposal08 ≠
      .AllowFull := by
  have h2 : MicrospaceIntegrityGuard.new.evaluate_activity beeState
      beeProposal08 =
      .PauseAndRest
        "Activity power approaching limit; consider reducing duty cycle" := by
    have hl : MicrospaceIntegrityGuard.new.activity_power_limits
        beeState.ecosystem_role = some 1.0 := rfl
    unfold MicrospaceIntegrityGuard.evaluate_activity
    rw [hl, Option.getD_some]
    rw [if_neg (by norm_num [beeProposal08, beeProposal5]),
      if_pos (by norm_num [beeProposal08, beeProposal5])]
  exact ⟨rfl, h2, by rw [h2]; simp⟩

/-- C4 (amended): for the activity-power guard with the known
`flight_metabolic` ecosystem role, whose limit is 1.0 mW,
`evaluate_activity` returns `Forbid` for a proposed draw of 5.0 mW and
`PauseAndRest` (not `AllowFull`) for 0.8 mW; in general its soft
decision fires exactly when the draw exceeds limit × 0.7 without
exceeding the limit. -/
theorem evaluate_activity_flight_metabolic (state : MicrospaceState)
    (proposal : SwarmActivityProposal)
    (hrole : state.ecosystem_role = "flight_metabolic") :
    (proposal.proposed_energy_draw_mw = 5 →
      (MicrospaceIntegrityGuard.new.evaluate_activity state
        proposal).isForbid = true) ∧
    (proposal.proposed_energy_draw_mw = 0.8 →
      MicrospaceIntegrityGuard.new.evaluate_activity state proposal =
        .PauseAndRest
          "Activity power approaching limit; consider reducing duty cycle") ∧
    ((MicrospaceIntegrityGuard.new.evaluate_activity state
        proposal).isSoft = true ↔
      (0.7 < proposal.proposed_energy_draw_mw ∧
        proposal.proposed_energy_draw_mw ≤ 1)) := by
  unfold MicrospaceIntegrityGuard.evaluate_activity
  rw [hrole, flight_metabolic_limit]
  refine ⟨?_, ?_, ?_⟩
  · intro hv
    rw [hv, if_pos (by norm_num)]
    rfl
  · intro hv
    rw [hv, if_neg (by norm_num), if_pos (by norm_num)]
  · constructor
    · intro hsoft
      simp only [] at hsoft
      split_ifs at hsoft with h1 h2
      · simp [GuardDecision.isSoft] at hsoft
      · constructor
        · calc (0.7 : ℚ) = 1 * 0.7 := by norm_num
            _ < proposal.proposed_energy_draw_mw := h2
        · exact le_of_not_lt h1
      · simp [GuardDecision.isSoft] at hsoft
    · intro hv
      simp only []
      rw [if_neg (not_lt.mpr hv.2), if_pos (by
        calc (1 : ℚ) * 0.7 = 0.7 := by norm_num
          _ < proposal.proposed_energy_draw_mw := hv.1)]
      rfl

/-- C4 witness: at 0.8 mW in the bee microspace the amended claim
yields the `PauseAndRest` decision. -/
theorem evaluate_activity_flight_metabolic_witness :
    MicrospaceIntegrityGuard.new.evaluate_activity beeState beeProposal08 =
      .PauseAndRest
        "Activity power approaching limit; consider reducing duty cycle" :=
  (evaluate_activity_flight_metabolic beeState beeProposal08 rfl).2.1 rfl

/-- Helper: the density sub-check never returns `PauseAndRest`. -/
theorem evaluate_density_not_pause (g : MicrospaceIntegrityGuard)
    (s : MicrospaceState) (r : String) :
    g.evaluate_density s ≠ .PauseAndRest r := by
  unfold MicrospaceIntegrityGuard.evaluate_density
  simp only []
  split_ifs <;> simp

/-- Helper: the activity sub-check never returns `DegradePrecision`. -/
theorem evaluate_activity_not_degrade (g : MicrospaceIntegrityGuard)
    (s : MicrospaceState) (p : SwarmActivityProposal) (r : String) :
    g.evaluate_activity s p ≠ .DegradePrecision r := by
  unfold MicrospaceIntegrityGuard.evaluate_activity
  simp only []
  split_ifs <;> simp

/-- Helper: the duration sub-check never returns `DegradePrecision`. -/
theorem evaluate_duration_not_degrade (g : MicrospaceIntegrityGuard)
    (s : MicrospaceState) (p : SwarmActivityProposal) (r : String) :
    g.evaluate_duration s p ≠ .DegradePrecision r := by
  unfold MicrospaceIntegrityGuard.evaluate_duration
  simp only []
  split_ifs <;> simp

/-- C5: `evaluate_swarm_proposal` forbids exactly when one of the three
sub-checks forbids (so whether the result is `Forbid` is independent of
the combination order); when none forbids it returns the first soft
decision in density → activity → duration order, and `AllowFull`
exactly when all three sub-checks return `AllowFull`. -/
theorem evaluate_swarm_proposal_composition (g : MicrospaceIntegrityGuard)
    (s : MicrospaceState) (p : SwarmActivityProposal) :
    ((g.evaluate_swarm_proposal s p).isForbid =
      ((g.evaluate_density s).isForbid ||
        (g.evaluate_activity s p).isForbid ||
        (g.evaluate_duration s p).isForbid)) ∧
    ((g.evaluate_density s).isForbid = false →
      (g.evaluate_activity s p).isForbid = false →
      (g.evaluate_duration s p).isForbid = false →
      g.evaluate_swarm_proposal s p =
        (if (g.evaluate_density s).isSoft then g.evaluate_density s
         else if (g.evaluate_activity s p).isSoft then
           g.evaluate_activity s p
         else if (g.evaluate_duration s p).isSoft then
           g.evaluate_duration s p
         else .AllowFull)) ∧
    (g.evaluate_swarm_proposal s p = .AllowFull ↔
      (g.evaluate_density s = .AllowFull ∧
        g.evaluate_activity s p = .AllowFull ∧
        g.evaluate_duration s p = .AllowFull)) := by
  unfold MicrospaceIntegrityGuard.evaluate_swarm_proposal
  simp only []
  cases hd : g.evaluate_density s <;>
    cases ha : g.evaluate_activity s p <;>
      cases hu : g.evaluate_duration s p <;>
        first
          | exact absurd hd (evaluate_density_not_pause g s _)
          | exact absurd ha (evaluate_activity_not_degrade g s p _)
          | exact absurd hu (evaluate_duration_not_degrade g s p _)
          | refine ⟨?_, ?_, ?_⟩ <;>
              simp [GuardDecision.isForbid, GuardDecision.isSoft]

/-- C5 witness: at the comfortable soil-microspace inputs all three
sub-checks allow, and the composed decision is `AllowFull`. -/
theorem evaluate_swarm_proposal_composition_witness :
    MicrospaceIntegrityGuard.new.evaluate_swarm_proposal soilState
      soilProposal = .AllowFull :=
  (evaluate_swarm_proposal_composition MicrospaceIntegrityGuard.new
      soilState soilProposal).2.2.mpr
    ⟨by
      have h : MicrospaceIntegrityGuard.new.density_ceilings
          soilState.occupant_organism = some 0.5 := rfl
      unfold MicrospaceIntegrityGuard.evaluate_density
      rw [h, Option.getD_some]
      rw [if_neg (by norm_num [soilState]), if_neg (by norm_num [soilState])],
     by
      have h : MicrospaceIntegrityGuard.new.activity_power_limits
          soilState.ecosystem_role = some 10.0 := rfl
      unfold MicrospaceIntegrityGuard.evaluate_activity
      rw [h, Option.getD_some]
      rw [if_neg (by norm_num [soilProposal]),
        if_neg (by norm_num [soilProposal])],
     by decide⟩

/-- C1: once the context and evidence validations pass, the first guard
in the fixed BCI → RoH → envelope order to return `Forbid` determines
the result: `evaluate_evolution` returns an error carrying that guard's
rejection and produces no audit record; the result does not depend on
the guards after the forbidding one. -/
theorem evaluate_evolution_short_circuits (engine : ReconciliationEngine)
    (proposal : EvolutionProposal)
    (hctx : proposal.corridor_context.validate = .ok ())
    (hev : proposal.evidence_bundle.validate = .ok ()) :
    (∀ r, engine.bci_guard.evaluate proposal.proposed_bci = .Forbid r →
      engine.evaluate_evolution proposal =
        .error (.GuardRejection
          ("BCI guard rejected: " ++ guardDecisionRepr (.Forbid r)))) ∧
    ((engine.bci_guard.evaluate proposal.proposed_bci).isForbid = false →
      ∀ r, ReconciliationEngine.rohDecision engine proposal = .Forbid r →
      engine.evaluate_evolution proposal =
        .error (.MonotonicityViolation
          ("RoH guard rejected: " ++ guardDecisionRepr (.Forbid r)))) ∧
    ((engine.bci_guard.evaluate proposal.proposed_bci).isForbid = false →
      (ReconciliationEngine.rohDecision engine proposal).isForbid = false →
      engine.envelope_guard_enabled = true →
      ∀ r, ReconciliationEngine.envelopeDecision proposal = .Forbid r →
      engine.evaluate_evolution proposal =
        .error (.GuardRejection
          ("Envelope guard rejected: " ++ guardDecisionRepr (.Forbid r)))) := by
  unfold ReconciliationEngine.evaluate_evolution
    ReconciliationEngine.evaluateEvolutionWith
  rw [hctx, hev]
  simp only []
  refine ⟨?_, ?_, ?_⟩
  · intro r hr
    rw [hr]
    simp
    simp [GuardDecision.isForbid]
  · intro hb r hr
    rw [hr]
    simp [hb]
    simp [GuardDecision.isForbid]
  · intro hb hroh henv r hr
    simp [hb, hroh, henv, hr]
    simp [GuardDecision.isForbid]

/-- C1 witness: with a proposed BCI* of 0.5 against the 0.25 ceiling,
the BCI guard forbids and the engine returns exactly that rejection. -/
theorem evaluate_evolution_short_circuits_witness :
    sampleEngine.evaluate_evolution proposalBciForbid =
      .error (.GuardRejection
        ("BCI guard rejected: " ++
          guardDecisionRepr (.Forbid "proposed BCI* exceeds ceiling"))) :=
  (evaluate_evolution_short_circuits sampleEngine proposalBciForbid rfl
      sampleEvidence_validate_ok).1
    "proposed BCI* exceeds ceiling"
    (by
      unfold BciCeilingGuard.evaluate
      rw [if_pos (by
        norm_num [sampleEngine, proposalBciForbid, sampleProposal])])

/-- C2: if the context and evidence validate, no guard forbids, the
policy-constraint scan passes, but the built audit record's
monotonicity self-check returns false, then `evaluate_evolution`
returns a `MonotonicityViolation` error and does not return the record
as a normal outcome.  The self-check (which lives in the missing
`types/audit.rs`) is universally quantified. -/
theorem evaluate_evolution_selfcheck_fatal
    (check : EvolutionAuditRecord → Bool) (engine : ReconciliationEngine)
    (proposal : EvolutionProposal)
    (hctx : proposal.corridor_context.validate = .ok ())
    (hev : proposal.evidence_bundle.validate = .ok ())
    (hb : (engine.bci_guard.evaluate proposal.proposed_bci).isForbid = false)
    (hroh : (ReconciliationEngine.rohDecision engine proposal).isForbid = false)
    (henv : (ReconciliationEngine.envelopeDecision proposal).isForbid = false)
    (hcon : ReconciliationEngine.violatedConstraint
      engine.policy_profile.neurorights_constraints = none)
    (hchk : check (ReconciliationEngine.buildAuditRecord engine proposal) =
      false) :
    ReconciliationEngine.evaluateEvolutionWith check engine proposal =
      .error (.MonotonicityViolation
        "Audit record violates monotonicity constraint") := by
  unfold ReconciliationEngine.evaluateEvolutionWith
  rw [hctx, hev]
  simp only []
  simp [hb, hroh, henv, ReconciliationEngine.finishEvaluation, hcon, hchk]

/-- C2 witness: with a self-check that always fails, the passing test
proposal is rejected with the fatal `MonotonicityViolation`. -/
theorem evaluate_evolution_selfcheck_fatal_witness :
    ReconciliationEngine.evaluateEvolutionWith (fun _ => false)
      sampleEngine sampleProposal =
      .error (.MonotonicityViolation
        "Audit record violates monotonicity constraint") :=
  evaluate_evolution_selfcheck_fatal (fun _ => false) sampleEngine
    sampleProposal rfl sampleEvidence_validate_ok
    (by
      unfold BciCeilingGuard.evaluate
      rw [if_neg (by norm_num [sampleEngine, sampleProposal]),
        if_neg (by norm_num [sampleEngine, sampleProposal])]
      rfl)
    (by
      unfold ReconciliationEngine.rohDecision RoHGuard.evaluate
      rw [if_neg (by norm_num [sampleEngine, sampleProposal])]
      rfl)
    (by
      unfold ReconciliationEngine.envelopeDecision EnvelopeGuard.evaluate
      rw [if_neg (by norm_num [sampleProposal])]
      rfl)
    rfl rfl

/-- Helper: the built audit record for a proposal whose proposed RoH is
the test value 0.12 passes the modelled monotonicity self-check. -/
theorem buildAuditRecord_soft_respects :
    EvolutionAuditRecord.respects_monotonicity
      (ReconciliationEngine.buildAuditRecord sampleEngine proposalBciSoft) =
      true := by
  unfold EvolutionAuditRecord.respects_monotonicity
    ReconciliationEngine.buildAuditRecord
  show decide ((0.12 : ℚ) ≤ 0.3) = true
  rw [decide_eq_true_eq]
  norm_num

/-- Helper: the BCI guard's decision on the 0.22 proposal is the soft
`DegradePrecision`, not `AllowFull`. -/
theorem bci_guard_soft_on_022 :
    sampleEngine.bci_guard.evaluate proposalBciSoft.proposed_bci =
      .DegradePrecision "proposed BCI* approaching ceiling" := by
  unfold BciCeilingGuard.evaluate
  rw [if_neg (by norm_num [sampleEngine, proposalBciSoft, sampleProposal]),
    if_pos (by norm_num [sampleEngine, proposalBciSoft, sampleProposal])]

/-- C3 counterexample: on a proposal where the BCI guard returns the
soft decision `DegradePrecision` (proposed BCI* 0.22, warn threshold
0.2125, ceiling 0.25), `evaluate_evolution` succeeds, yet the audit
record's recorded outcome is the same `Allowed` it records when every
guard returns `AllowFull` — the outcome type has no soft variant, so
the recorded decision is not the most severe soft decision observed, as
the claim states. -/
theorem evolution_outcome_discards_soft_counterexample :
    (sampleEngine.bci_guard.evaluate proposalBciSoft.proposed_bci).isSoft =
      true ∧
    sampleEngine.evaluate_evolution proposalBciSoft =
      .ok (.Allowed,
        ReconciliationEngine.buildAuditRecord sampleEngine proposalBciSoft) ∧
    (ReconciliationEngine.buildAuditRecord sampleEngine
      proposalBciSoft).outcome = .Allowed := by
  refine ⟨by rw [bci_guard_soft_on_022]; rfl, ?_, rfl⟩
  unfold ReconciliationEngine.evaluate_evolution
    ReconciliationEngine.evaluateEvolutionWith
  rw [show proposalBciSoft.corridor_context.validate = .ok () from rfl]
  rw [show proposalBciSoft.evidence_bundle.validate = .ok () from
    sampleEvidence_validate_ok]
  simp only []
  rw [bci_guard_soft_on_022]
  have hroh : (ReconciliationEngine.rohDecision sampleEngine
      proposalBciSoft).isForbid = false := by
    unfold ReconciliationEngine.rohDecision RoHGuard.evaluate
    rw [if_neg (by norm_num [sampleEngine, proposalBciSoft, sampleProposal])]
    rfl
  have henv : (ReconciliationEngine.envelopeDecision
      proposalBciSoft).isForbid = false := by
    unfold ReconciliationEngine.envelopeDecision EnvelopeGuard.evaluate
    rw [if_neg (by norm_num [proposalBciSoft, sampleProposal])]
    rfl
  have hcon : ReconciliationEngine.violatedConstraint
      sampleEngine.policy_profile.neurorights_constraints = none := rfl
  simp [hroh, henv, ReconciliationEngine.finishEvaluation, hcon,
    buildAuditRecord_soft_respects]
  rfl

/-- C3 (amended): for every proposal on which validation passes, no
guard forbids, the policy-constraint scan passes and the audit record's
self-check passes, `evaluate_evolution` returns the audit record with
outcome `Allowed` — always the same `Allowed`, regardless of any soft
decisions (`DegradePrecision`/`PauseAndRest`) observed during guard
evaluation, because the engine discards them. -/
theorem evaluate_evolution_records_allowed (engine : ReconciliationEngine)
    (proposal : EvolutionProposal)
    (hctx : proposal.corridor_context.validate = .ok ())
    (hev : proposal.evidence_bundle.validate = .ok ())
    (hb : (engine.bci_guard.evaluate proposal.proposed_bci).isForbid = false)
    (hroh : (ReconciliationEngine.rohDecision engine proposal).isForbid =
      false)
    (henv : (ReconciliationEngine.envelopeDecision proposal).isForbid =
      false)
    (hcon : ReconciliationEngine.violatedConstraint
      engine.policy_profile.neurorights_constraints = none)
    (hchk : EvolutionAuditRecord.respects_monotonicity
      (ReconciliationEngine.buildAuditRecord engine proposal) = true) :
    engine.evaluate_evolution proposal =
      .ok (.Allowed,
        ReconciliationEngine.buildAuditRecord engine proposal) ∧
    (ReconciliationEngine.buildAuditRecord engine proposal).outcome =
      .Allowed := by
  refine ⟨?_, rfl⟩
  unfold ReconciliationEngine.evaluate_evolution
    ReconciliationEngine.evaluateEvolutionWith
  rw [hctx, hev]
  simp only []
  simp [hb, hroh, henv, ReconciliationEngine.finishEvaluation, hcon, hchk]

/-- C3 witness: the soft-BCI proposal satisfies all the hypotheses and
is recorded as `Allowed`. -/
theorem evaluate_evolution_records_allowed_witness :
    sampleEngine.evaluate_evolution proposalBciSoft =
      .ok (.Allowed,
        ReconciliationEngine.buildAuditRecord sampleEngine
          proposalBciSoft) :=
  (evaluate_evolution_records_allowed sampleEngine proposalBciSoft rfl
      sampleEvidence_validate_ok
      (by rw [bci_guard_soft_on_022]; rfl)
      (by
        unfold ReconciliationEngine.rohDecision RoHGuard.evaluate
        rw [if_neg (by
          norm_num [sampleEngine, proposalBciSoft, sampleProposal])]
        rfl)
      (by
        unfold ReconciliationEngine.envelopeDecision EnvelopeGuard.evaluate
        rw [if_neg (by norm_num [proposalBciSoft, sampleProposal])]
        rfl)
      rfl buildAuditRecord_soft_respects).1

/-- C10: every engine reachable through the public lifecycle (created
by `new`, updated only by `set_policy_profile`) carries the fixed RoH
ceiling 0.3, independent of any ceiling in the installed profile, and
the RoH guard of every evaluation is therefore built with ceiling
0.3. -/
theorem engine_roh_ceiling_fixed (e : ReconciliationEngine)
    (h : EngineReachable e) :
    e.roh_ceiling = 0.3 ∧
    ∀ proposal, ReconciliationEngine.rohDecision e proposal =
      RoHGuard.evaluate ⟨0.3, proposal.current_roh⟩ proposal.proposed_roh := by
  have hc : e.roh_ceiling = 0.3 := by
    induction h with
    | of_new p e1 hnew =>
      unfold ReconciliationEngine.new at hnew
      cases hv : p.validate with
      | error s =>
        rw [hv] at hnew
        cases hnew
      | ok u =>
        rw [hv] at hnew
        simp only [] at hnew
        cases hnew
        rfl
    | of_set e1 p he ih =>
      unfold ReconciliationEngine.set_policy_profile
      cases hv : p.validate with
      | error s => exact ih
      | ok u => exact ih
  refine ⟨hc, fun proposal => ?_⟩
  unfold ReconciliationEngine.rohDecision
  rw [hc]

/-- C10 witness: the engine built by `new` from the test profile (whose
BCI ceiling is 0.25) has RoH ceiling 0.3. -/
theorem engine_roh_ceiling_fixed_witness :
    sampleEngine.roh_ceiling = 0.3 :=
  (engine_roh_ceiling_fixed sampleEngine
    (EngineReachable.of_new sampleProfile sampleEngine (by
      unfold ReconciliationEngine.new
      rw [sampleProfile_validate_ok]
      simp only []
      rw [show max (sampleProfile.biomech_policy.bci_ceiling * 0.85) 0 =
        (0.2125 : ℚ) from by norm_num [sampleProfile]]
      rfl))).1

end Morpheus
